import Mathlib

/-!
Verification of the authentication and session-management core of the
go-rest-api-poc repository.

The Go source is shallowly embedded: the relational store and the
best-effort cache become explicit fields of an `AuthState` record, every
service operation becomes a pure function from state to (result, state),
and wall-clock time is the integer field `now` (seconds, matching the
second granularity of the `iat`/`exp` JWT claims produced by
`time.Time.Unix()`).  External library primitives (bcrypt, SHA-256,
HS256 JWT signing) are not part of the repository; they are modelled
from the spec by their documented contracts, with a doc comment on each
such definition saying exactly what is idealized.
-/

namespace RestApi

/-! ## Credential and token codec (src/unnamed/part_008) -/

/-- A bcrypt digest.  Modelled from the spec: bcrypt is the external
`golang.org/x/crypto/bcrypt` library, not repository code.  Its contract
(a salted one-way adaptive hash; comparison succeeds exactly when the
same password is presented, idealizing collision freedom) is modelled by
carrying the salt and the hashed password abstractly. -/
structure BcryptHash where
  salt : String
  password : String
deriving DecidableEq, Repr

/-- Modelled from the spec: `HashPassword` calls
`bcrypt.GenerateFromPassword`, whose salt is drawn from the library's
randomness; the salt is therefore an explicit entropy argument here. -/
def HashPassword (salt password : String) : BcryptHash :=
  { salt := salt, password := password }

/-- `ComparePassword` calls `bcrypt.CompareHashAndPassword`: it re-hashes
the plaintext under the stored salt and compares digests, so (idealizing
collision freedom) it succeeds exactly when the passwords agree.  The Go
function returns `error`; `true` here models the `nil` (success) return. -/
def ComparePassword (hashedPassword : BcryptHash) (plainPassword : String) : Bool :=
  hashedPassword.password == plainPassword

/-- Modelled from the spec: `HashToken` is the SHA-256 hex digest of the
token (`crypto/sha256` is external library code).  It is modelled as a
deterministic injective encoding, idealizing collision freedom of the
digest. -/
def HashToken (token : String) : String :=
  "sha256:" ++ token

/-! ## Token claims (src/internal/domain/auth/handler.go, JWTService) -/

/-- The claim set of a refresh token.  `iat`/`exp` are Unix seconds. -/
structure RefreshTokenData where
  userId : String
  sessionId : String
  iat : Int
  exp : Int
deriving DecidableEq, Repr

/-- Modelled from the spec: HS256 signing of a fixed claim map under a
fixed secret/issuer/audience is a deterministic function of the claims
(identical claims yield a byte-identical JWT), modelled as a
deterministic encoding of the claim fields. -/
def signRefreshToken (t : RefreshTokenData) : String :=
  t.userId ++ ";" ++ t.sessionId ++ ";" ++ toString t.iat ++ ";" ++ toString t.exp

/-- The claim set of an access token, as extracted by
`ValidateAccessToken`. -/
structure AccessTokenClaims where
  userId : String
  email : String
  role : String
  sessionId : String
  iat : Int
  exp : Int
deriving DecidableEq, Repr

/-- `JWTService.GenerateAccessToken`: claims with `iat = now` and
`exp = now + accessTokenLifetime`. -/
def GenerateAccessToken (now lifetime : Int) (userID email role sessionID : String) :
    AccessTokenClaims :=
  { userId := userID, email := email, role := role, sessionId := sessionID,
    iat := now, exp := now + lifetime }

/-- `JWTService.GenerateRefreshToken`: claims with `iat = now` and
`exp = now + lifetime` for a caller-supplied lifetime. -/
def GenerateRefreshToken (now : Int) (userID sessionID : String) (lifetime : Int) :
    RefreshTokenData :=
  { userId := userID, sessionId := sessionID, iat := now, exp := now + lifetime }

/-! ## Data model (auth/model.go, auth/module.go, migrations) -/

/-- Projection of a `users` row joined with its role
(`Repository.GetUserByEmail` / `GetUserByID`).  `deleted` models
`deleted_at IS NOT NULL`. -/
structure UserWithAuth where
  id : String
  email : String
  password : BcryptHash
  role : String
  isActive : Bool
  isBlocked : Bool
  blockedBy : Option String
  deleted : Bool
deriving DecidableEq, Repr

/-- A `user_sessions` row. -/
structure Session where
  id : String
  userId : String
  refreshTokenHash : String
  isActive : Bool
  lastActivityAt : Int
  expiresAt : Int
  createdAt : Int
deriving DecidableEq, Repr

/-- A `password_reset_tokens` row.  `used` models `used_at IS NOT NULL`. -/
structure PasswordResetToken where
  id : String
  userId : String
  tokenHash : String
  otp : String
  expiresAt : Int
  used : Bool
  createdAt : Int
deriving DecidableEq, Repr

/-- Cached session projection (auth cache contract). -/
structure CachedSession where
  userId : String
  isActive : Bool
  expiresAt : Int
deriving DecidableEq, Repr

/-- Cached user projection (auth cache contract). -/
structure CachedUser where
  email : String
  role : String
  isActive : Bool
  isBlocked : Bool
deriving DecidableEq, Repr

/-- A cache entry together with the TTL that was handed to `Set...`.
The claims under audit inspect the TTL value given to the cache, so the
entry records it; the cache's own key-expiry mechanics are not needed by
any claim and are left abstract. -/
structure CacheEntry (α : Type) where
  val : α
  ttl : Int
deriving DecidableEq, Repr

/-- The whole mutable world: relational store tables, both cache key
spaces, the clock, and the store's id sequence for new sessions. -/
structure AuthState where
  users : List UserWithAuth
  sessions : List Session
  resetTokens : List PasswordResetToken
  sessionCache : List (String × CacheEntry CachedSession)
  userCache : List (String × CacheEntry CachedUser)
  now : Int
  nextSessionId : Nat
deriving DecidableEq, Repr

/-- The auth-relevant configuration (config.AuthConfig plus the cache
TTL), durations in seconds. -/
structure AuthConfig where
  accessTokenLifetime : Int
  refreshTokenLifetime : Int
  staySignedInLifetime : Int
  passwordResetOTPLifetime : Int
  cacheTTL : Int
deriving DecidableEq, Repr

/-! ## Repository (auth/module.go) -/

/-- `Repository.GetUserByEmail`: `WHERE email = $1 AND deleted_at IS NULL`;
`none` models `pgx.ErrNoRows`. -/
def getUserByEmail (st : AuthState) (email : String) : Option UserWithAuth :=
  st.users.find? fun u => u.email == email && !u.deleted

/-- `Repository.GetUserByID`: `WHERE id = $1 AND deleted_at IS NULL`. -/
def getUserByID (st : AuthState) (userID : String) : Option UserWithAuth :=
  st.users.find? fun u => u.id == userID && !u.deleted

/-- `Repository.UpdateUserPassword`: `SET password = $1 WHERE id = $2 AND
deleted_at IS NULL` (no error when zero rows match). -/
def updateUserPassword (st : AuthState) (userID : String) (hashedPassword : BcryptHash) :
    AuthState :=
  { st with users := st.users.map fun u =>
      if u.id == userID && !u.deleted then { u with password := hashedPassword } else u }

/-- `Repository.BlockUser`: `SET is_blocked = true, blocked_by = $1 WHERE
id = $2 AND deleted_at IS NULL`. -/
def blockUserRepo (st : AuthState) (userID blockedBy : String) : AuthState :=
  { st with users := st.users.map fun u =>
      if u.id == userID && !u.deleted then
        { u with isBlocked := true, blockedBy := some blockedBy }
      else u }

/-- `Repository.GetSessionByRefreshTokenHash`: `WHERE refresh_token_hash
= $1` (no active or expiry filter in the SQL). -/
def getSessionByRefreshTokenHash (st : AuthState) (tokenHash : String) : Option Session :=
  st.sessions.find? fun s => s.refreshTokenHash == tokenHash

/-- `Repository.GetSessionByID`: `WHERE id = $1`. -/
def getSessionByID (st : AuthState) (sessionID : String) : Option Session :=
  st.sessions.find? fun s => s.id == sessionID

/-- `Repository.GetActiveSessionIDsByUserID`: `SELECT id WHERE user_id =
$1 AND is_active = true`. -/
def getActiveSessionIDsByUserID (st : AuthState) (userID : String) : List String :=
  (st.sessions.filter fun s => s.userId == userID && s.isActive).map Session.id

/-- `Repository.UpdateSessionRefreshToken`: `SET refresh_token_hash = $1,
last_activity_at = NOW() WHERE id = $2`. -/
def updateSessionRefreshToken (st : AuthState) (sessionID newTokenHash : String) : AuthState :=
  { st with sessions := st.sessions.map fun s =>
      if s.id == sessionID then
        { s with refreshTokenHash := newTokenHash, lastActivityAt := st.now }
      else s }

/-- `Repository.InvalidateSession`: `SET is_active = false WHERE id = $1`
(an UPDATE matching zero rows is still a success). -/
def invalidateSession (st : AuthState) (sessionID : String) : AuthState :=
  { st with sessions := st.sessions.map fun s =>
      if s.id == sessionID then { s with isActive := false } else s }

/-- `Repository.InvalidateAllUserSessions`: `SET is_active = false WHERE
user_id = $1`. -/
def invalidateAllUserSessions (st : AuthState) (userID : String) : AuthState :=
  { st with sessions := st.sessions.map fun s =>
      if s.userId == userID then { s with isActive := false } else s }

/-- `Repository.CreatePasswordResetToken`: INSERT RETURNING id (the id is
already set on the record passed in by the service model). -/
def createPasswordResetToken (st : AuthState) (t : PasswordResetToken) : AuthState :=
  { st with resetTokens := st.resetTokens ++ [t] }

/-- Fold step realizing `ORDER BY created_at DESC LIMIT 1`. -/
def newerResetToken : Option PasswordResetToken → PasswordResetToken →
    Option PasswordResetToken
  | none, t => some t
  | some b, t => if b.createdAt < t.createdAt then some t else some b

/-- `Repository.GetPasswordResetToken`: join with `users` on `user_id`,
`WHERE u.email = $1 AND otp = $2 AND used_at IS NULL AND expires_at >
NOW()`, newest first, limit 1. -/
def getPasswordResetToken (st : AuthState) (email otp : String) :
    Option PasswordResetToken :=
  ((st.resetTokens.filter fun t =>
      t.otp == otp && !t.used && st.now < t.expiresAt &&
      st.users.any fun u => u.id == t.userId && u.email == email).foldl
    newerResetToken none)

/-- `Repository.MarkPasswordResetTokenAsUsed`: `SET used_at = NOW() WHERE
id = $1`. -/
def markPasswordResetTokenAsUsed (st : AuthState) (tokenID : String) : AuthState :=
  { st with resetTokens := st.resetTokens.map fun t =>
      if t.id == tokenID then { t with used := true } else t }

/-! ## Cache (redis adapter behind the AuthCache contract) -/

/-- `AuthCache.GetSession`. -/
def cacheGetSession (st : AuthState) (sessionID : String) :
    Option (CacheEntry CachedSession) :=
  (st.sessionCache.find? fun e => e.1 == sessionID).map Prod.snd

/-- `AuthCache.SetSession` with the TTL chosen by the caller. -/
def cacheSetSession (st : AuthState) (sessionID : String) (cs : CachedSession)
    (ttl : Int) : AuthState :=
  { st with sessionCache :=
      (sessionID, { val := cs, ttl := ttl }) ::
        st.sessionCache.filter fun e => e.1 != sessionID }

/-- `AuthCache.DelSession`. -/
def cacheDelSession (st : AuthState) (sessionID : String) : AuthState :=
  { st with sessionCache := st.sessionCache.filter fun e => e.1 != sessionID }

/-- `AuthCache.GetUser`. -/
def cacheGetUser (st : AuthState) (userID : String) : Option (CacheEntry CachedUser) :=
  (st.userCache.find? fun e => e.1 == userID).map Prod.snd

/-- `AuthCache.SetUser`. -/
def cacheSetUser (st : AuthState) (userID : String) (cu : CachedUser) (ttl : Int) :
    AuthState :=
  { st with userCache :=
      (userID, { val := cu, ttl := ttl }) ::
        st.userCache.filter fun e => e.1 != userID }

/-- `AuthCache.DelUser`. -/
def cacheDelUser (st : AuthState) (userID : String) : AuthState :=
  { st with userCache := st.userCache.filter fun e => e.1 != userID }

/-- `Service.cacheDelSession`: skipped when the id is empty. -/
def svcCacheDelSession (st : AuthState) (sessionID : String) : AuthState :=
  if sessionID == "" then st else cacheDelSession st sessionID

/-- `Service.cacheDelUser`: skipped when the id is empty. -/
def svcCacheDelUser (st : AuthState) (userID : String) : AuthState :=
  if userID == "" then st else cacheDelUser st userID

/-- The TTL-clamping pattern used verbatim at both session-cache write
sites (`Service.createSession` and the middleware populate path):
`ttl := cacheTTL; if until := remaining; until > 0 && until < ttl { ttl =
until }`. -/
def clampCacheTTL (ttl untilExpiry : Int) : Int :=
  if 0 < untilExpiry && untilExpiry < ttl then untilExpiry else ttl

/-! ## Service (src/unnamed/part_007) -/

/-- The typed error sentinels of the auth service and token codec
(`ErrInvalidCredentials`, `ErrSessionNotFound`, ...).  `internal` stands
for a wrapped non-sentinel error (`fmt.Errorf(..., %w, err)`). -/
inductive AuthErr where
  | invalidCredentials
  | userNotActive
  | userBlocked
  | emailAlreadyExists
  | invalidOTP
  | sessionNotFound
  | sessionInactive
  | sessionExpired
  | expiredToken
  | invalidToken
  | internal
deriving DecidableEq, Repr

/-- `LoginRequest` DTO. -/
structure LoginRequest where
  email : String
  password : String
  staySignedIn : Bool
deriving DecidableEq, Repr

/-- `PasswordResetVerifyRequest` DTO. -/
structure PasswordResetVerifyRequest where
  email : String
  otp : String
  newPassword : String
deriving DecidableEq, Repr

/-- The login result the handler consumes: the authenticated user's id
and the two freshly minted tokens (the rest of `LoginResponse` is a
field-for-field projection of the user row). -/
structure LoginResult where
  userId : String
  accessToken : AccessTokenClaims
  refreshToken : RefreshTokenData
deriving DecidableEq, Repr

/-- `Service.createSession`.  The source first mints tokens under a
placeholder session id, inserts the row, then regenerates both tokens
with the row's real id and rotates the stored hash to the final token's
hash; the placeholder-id tokens are discarded and never returned, so the
observable result is minting once with the real id, which is what this
model does (the spec itself notes the two orders are equivalent).
Returns (session, access token, refresh token, state). -/
def createSession (cfg : AuthConfig) (st : AuthState) (user : UserWithAuth)
    (refreshLifetime : Int) :
    Session × AccessTokenClaims × RefreshTokenData × AuthState :=
  let sessionId := "sess-" ++ toString st.nextSessionId
  let accessToken :=
    GenerateAccessToken st.now cfg.accessTokenLifetime user.id user.email user.role sessionId
  let refreshToken := GenerateRefreshToken st.now user.id sessionId refreshLifetime
  let session : Session :=
    { id := sessionId, userId := user.id,
      refreshTokenHash := HashToken (signRefreshToken refreshToken),
      isActive := true, lastActivityAt := st.now,
      expiresAt := st.now + refreshLifetime, createdAt := st.now }
  let st1 := { st with sessions := st.sessions ++ [session],
                       nextSessionId := st.nextSessionId + 1 }
  let untilExpiry := session.expiresAt - st.now
  let st2 := cacheSetSession st1 sessionId
    { userId := user.id, isActive := true, expiresAt := session.expiresAt }
    (clampCacheTTL cfg.cacheTTL untilExpiry)
  let st3 := cacheSetUser st2 user.id
    { email := user.email, role := user.role,
      isActive := user.isActive, isBlocked := user.isBlocked }
    cfg.cacheTTL
  (session, accessToken, refreshToken, st3)

/-- `Service.Login`.  Unknown email (`pgx.ErrNoRows`), inactive user,
blocked user, and password mismatch all return `ErrInvalidCredentials`
before any state is touched. -/
def login (cfg : AuthConfig) (st : AuthState) (req : LoginRequest) :
    Except AuthErr LoginResult × AuthState :=
  match getUserByEmail st req.email with
  | none => (.error .invalidCredentials, st)
  | some user =>
    if !user.isActive then (.error .invalidCredentials, st)
    else if user.isBlocked then (.error .invalidCredentials, st)
    else if !ComparePassword user.password req.password then
      (.error .invalidCredentials, st)
    else
      let refreshLifetime :=
        if req.staySignedIn then cfg.staySignedInLifetime else cfg.refreshTokenLifetime
      let r := createSession cfg st user refreshLifetime
      (.ok { userId := user.id, accessToken := r.2.1, refreshToken := r.2.2.1 }, r.2.2.2)

/-- `Service.Refresh`.  The token is presented as its claim set; the
`ValidateRefreshToken` signature/issuer/audience checks are the implicit
well-formedness of that claim set, and its expiry check (jwt/v5 requires
`now < exp`) is the leading guard. -/
def refresh (cfg : AuthConfig) (st : AuthState) (tok : RefreshTokenData) :
    Except AuthErr (AccessTokenClaims × RefreshTokenData) × AuthState :=
  if !decide (st.now < tok.exp) then (.error .expiredToken, st)
  else
    match getSessionByRefreshTokenHash st (HashToken (signRefreshToken tok)) with
    | none => (.error .sessionNotFound, st)
    | some session =>
      if !session.isActive then (.error .sessionInactive, st)
      else if decide (session.expiresAt < st.now) then (.error .sessionExpired, st)
      else
        match getUserByID st tok.userId with
        | none => (.error .internal, st)
        | some user =>
          if !user.isActive || user.isBlocked then
            (.error .userBlocked, invalidateSession st session.id)
          else
            let newAccessToken :=
              GenerateAccessToken st.now cfg.accessTokenLifetime
                user.id user.email user.role session.id
            let remainingTime := session.expiresAt - st.now
            let newRefreshToken :=
              GenerateRefreshToken st.now user.id session.id remainingTime
            let newTokenHash := HashToken (signRefreshToken newRefreshToken)
            (.ok (newAccessToken, newRefreshToken),
             updateSessionRefreshToken st session.id newTokenHash)

/-- `Service.Logout`: invalidate the session row, then drop its cache
entry; always succeeds. -/
def logout (st : AuthState) (sessionID : String) : Except AuthErr Unit × AuthState :=
  let st1 := invalidateSession st sessionID
  (.ok (), svcCacheDelSession st1 sessionID)

/-- `Service.BlockUser`: capture the active session ids, set the blocked
flag, invalidate all of the target's sessions, then drop each captured
session cache entry and the user cache entry. -/
def blockUser (st : AuthState) (userID blockedBy : String) :
    Except AuthErr Unit × AuthState :=
  let sessionIDs := getActiveSessionIDsByUserID st userID
  let st1 := blockUserRepo st userID blockedBy
  let st2 := invalidateAllUserSessions st1 userID
  let st3 := sessionIDs.foldl svcCacheDelSession st2
  (.ok (), svcCacheDelUser st3 userID)

/-- `Service.RequestPasswordReset`.  `otp` and `rawToken` are the
entropy consumed by `GenerateOTP`/`GenerateSecureToken` (external
`crypto/rand` draws, passed in explicitly).  An unknown email returns
success immediately, creating nothing. -/
def requestPasswordReset (cfg : AuthConfig) (st : AuthState)
    (email otp rawToken : String) : Except AuthErr Unit × AuthState :=
  match getUserByEmail st email with
  | none => (.ok (), st)
  | some user =>
    let resetToken : PasswordResetToken :=
      { id := "prt-" ++ toString st.resetTokens.length,
        userId := user.id, tokenHash := HashToken rawToken, otp := otp,
        expiresAt := st.now + cfg.passwordResetOTPLifetime,
        used := false, createdAt := st.now }
    (.ok (), createPasswordResetToken st resetToken)

/-- Which of `VerifyPasswordReset`'s repository calls after the password
update fail in this run.  Each flag models the corresponding store call
returning an error (the service then wraps and returns it). -/
structure RepoFaults where
  failMarkTokenUsed : Bool
  failInvalidateSessions : Bool
deriving DecidableEq, Repr

/-- `Service.VerifyPasswordReset`, with the post-update store calls
subject to the fault injection in `flt`.  `salt` is the bcrypt entropy
for `HashPassword`.  The source order is: find token, capture session
ids, hash new password, persist it, mark token used, invalidate all
sessions, clean cache. -/
def verifyPasswordReset (flt : RepoFaults) (st : AuthState)
    (req : PasswordResetVerifyRequest) (salt : String) :
    Except AuthErr Unit × AuthState :=
  match getPasswordResetToken st req.email req.otp with
  | none => (.error .invalidOTP, st)
  | some token =>
    let sessionIDs := getActiveSessionIDsByUserID st token.userId
    let hashedPassword := HashPassword salt req.newPassword
    let st1 := updateUserPassword st token.userId hashedPassword
    if flt.failMarkTokenUsed then (.error .internal, st1)
    else
      let st2 := markPasswordResetTokenAsUsed st1 token.id
      if flt.failInvalidateSessions then (.error .internal, st2)
      else
        let st3 := invalidateAllUserSessions st2 token.userId
        let st4 := sessionIDs.foldl svcCacheDelSession st3
        (.ok (), svcCacheDelUser st4 token.userId)

/-! ## Authentication middleware (auth_middleware.go) -/

/-- The middleware's rejection kinds (the `WriteError` calls). -/
inductive AuthReject where
  | missingToken
  | expiredToken
  | invalidToken
  | invalidSession
  | blockedOrInactive
deriving DecidableEq, Repr

/-- The middleware's possible responses: attach an identity, or reject. -/
inductive AuthOutcome where
  | ok (userId email role sessionId : String)
  | err (r : AuthReject)
deriving DecidableEq, Repr

/-- Lines 56-102 of `AuthMiddleware.Authenticate`: resolve the session
(cache first; on a valid cache hit use it, on an invalid one delete it
and reject; on a miss read the store, reject inactive/expired, and
populate the cache with the clamped TTL).  Returns the session's user id
and expiry. -/
def checkSession (cacheTTL : Int) (st : AuthState) (claims : AccessTokenClaims) :
    Except AuthReject (String × Int) × AuthState :=
  match cacheGetSession st claims.sessionId with
  | some e =>
    if !e.val.isActive || (e.val.expiresAt != 0 && decide (e.val.expiresAt < st.now)) then
      (.error .invalidSession, cacheDelSession st claims.sessionId)
    else
      (.ok (e.val.userId, e.val.expiresAt), st)
  | none =>
    match getSessionByID st claims.sessionId with
    | none => (.error .invalidSession, st)
    | some session =>
      if !session.isActive || decide (session.expiresAt < st.now) then
        (.error .invalidSession, st)
      else
        let untilExpiry := session.expiresAt - st.now
        let ttl :=
          if session.expiresAt != 0 then clampCacheTTL cacheTTL untilExpiry else cacheTTL
        (.ok (session.userId, session.expiresAt),
         cacheSetSession st claims.sessionId
           { userId := session.userId, isActive := session.isActive,
             expiresAt := session.expiresAt } ttl)

/-- Lines 111-147 of `AuthMiddleware.Authenticate`: resolve the user
(cache first, store on miss with cache populate); a store miss is
treated as an invalid token (anti-enumeration). -/
def checkUser (cacheTTL : Int) (st : AuthState) (claims : AccessTokenClaims) :
    Except AuthReject CachedUser × AuthState :=
  match cacheGetUser st claims.userId with
  | some e => (.ok e.val, st)
  | none =>
    match getUserByID st claims.userId with
    | none => (.error .invalidToken, st)
    | some user =>
      let cu : CachedUser :=
        { email := user.email, role := user.role,
          isActive := user.isActive, isBlocked := user.isBlocked }
      (.ok cu, cacheSetUser st claims.userId cu cacheTTL)

/-- `AuthMiddleware.Authenticate` for a request presenting a token whose
signature/expiry validation already succeeded with claim set `claims`
(requests with a missing or cryptographically invalid token are rejected
before this point): session stage, session/token user-id agreement
check, user stage, blocked/inactive gate, then identity attachment. -/
def authenticate (cacheTTL : Int) (st : AuthState) (claims : AccessTokenClaims) :
    AuthOutcome × AuthState :=
  match checkSession cacheTTL st claims with
  | (.error e, st1) => (.err e, st1)
  | (.ok su, st1) =>
    if su.1 != "" && su.1 != claims.userId then (.err .invalidToken, st1)
    else
      match checkUser cacheTTL st1 claims with
      | (.error e, st2) => (.err e, st2)
      | (.ok cu, st2) =>
        if !cu.isActive || cu.isBlocked then (.err .blockedOrInactive, st2)
        else (.ok claims.userId cu.email cu.role claims.sessionId, st2)

/-! ## Handler cookies (auth/handler.go) -/

/-- An HTTP cookie as set by the handler (the fields the claims speak
about). -/
structure Cookie where
  name : String
  maxAge : Int
  path : String
deriving DecidableEq, Repr

/-- `Handler.setAccessTokenCookie`: `MaxAge =
int(h.config.Auth.AccessTokenLifetime.Seconds())`. -/
def setAccessTokenCookie (cfg : AuthConfig) : Cookie :=
  { name := "access_token", maxAge := cfg.accessTokenLifetime, path := "/" }

/-- `Handler.setRefreshTokenCookie`: `MaxAge =
int(h.config.Auth.RefreshTokenLifetime.Seconds())` — the standard
refresh lifetime, with no reference to the request or the
stay-signed-in lifetime. -/
def setRefreshTokenCookie (cfg : AuthConfig) : Cookie :=
  { name := "refresh_token", maxAge := cfg.refreshTokenLifetime, path := "/v1/auth" }

/-- `Handler.Login`: on service success, set both cookies (the cookie
pair is the observable the cookie-lifetime claim is about). -/
def loginHandlerCookies (cfg : AuthConfig) (st : AuthState) (req : LoginRequest) :
    Option (Cookie × Cookie) :=
  match (login cfg st req).1 with
  | .error _ => none
  | .ok _ => some (setAccessTokenCookie cfg, setRefreshTokenCookie cfg)

/-! ## Result-shape helpers -/

/-- Whether a service call succeeded. -/
def exceptIsOk {α : Type} : Except AuthErr α → Bool
  | .ok _ => true
  | .error _ => false

/-- Whether the middleware attached an identity (request allowed). -/
def outcomeIsOk : AuthOutcome → Bool
  | .ok _ _ _ _ => true
  | .err _ => false

/-! ## General list lemmas -/

/-- `find?` commutes with a `map` whose function does not disturb the
predicate. -/
theorem find?_map_comm {α : Type} (f : α → α) (p : α → Bool)
    (hpf : ∀ x, p (f x) = p x) (l : List α) :
    (l.map f).find? p = (l.find? p).map f := by
  induction l with
  | nil => rfl
  | cons a t ih =>
    rw [List.map_cons]
    cases hpa : p a
    · have h1 : p (f a) = false := by rw [hpf a, hpa]
      simp only [List.find?, h1, hpa, ih]
    · have h1 : p (f a) = true := by rw [hpf a, hpa]
      simp only [List.find?, h1, hpa, Option.map_some']

/-- A map that fixes every element of the list is the identity on it. -/
theorem map_eq_self_of_fixed {α : Type} (f : α → α) (l : List α)
    (h : ∀ x ∈ l, f x = x) : l.map f = l := by
  induction l with
  | nil => rfl
  | cons a t ih =>
    rw [List.map_cons, h a (List.mem_cons_self a t),
      ih fun x hx => h x (List.mem_cons_of_mem a hx)]

/-- Filtering twice by the same predicate filters once. -/
theorem filter_idem {α : Type} (p : α → Bool) (l : List α) :
    (l.filter p).filter p = l.filter p := by
  induction l with
  | nil => rfl
  | cons a t ih => cases hp : p a <;> simp [List.filter_cons, hp, ih]

/-- After deleting a key from an association list, looking the key up
finds nothing. -/
theorem find?_filter_ne_none {α : Type} (l : List (String × α)) (k : String) :
    (l.filter fun e => e.1 != k).find? (fun e => e.1 == k) = none := by
  induction l with
  | nil => rfl
  | cons a t ih =>
    cases hk : a.1 == k <;>
      simp [List.filter_cons, bne, hk, List.find?, ih]

/-! ## State-preservation lemmas -/

theorem svcCacheDelSession_users (st : AuthState) (sid : String) :
    (svcCacheDelSession st sid).users = st.users := by
  unfold svcCacheDelSession cacheDelSession; split <;> rfl

theorem svcCacheDelSession_userCache (st : AuthState) (sid : String) :
    (svcCacheDelSession st sid).userCache = st.userCache := by
  unfold svcCacheDelSession cacheDelSession; split <;> rfl

theorem svcCacheDelSession_sessions (st : AuthState) (sid : String) :
    (svcCacheDelSession st sid).sessions = st.sessions := by
  unfold svcCacheDelSession cacheDelSession; split <;> rfl

theorem foldl_svcCacheDelSession_users (l : List String) (st : AuthState) :
    (l.foldl svcCacheDelSession st).users = st.users := by
  induction l generalizing st with
  | nil => rfl
  | cons a t ih => rw [List.foldl_cons, ih, svcCacheDelSession_users]

theorem foldl_svcCacheDelSession_userCache (l : List String) (st : AuthState) :
    (l.foldl svcCacheDelSession st).userCache = st.userCache := by
  induction l generalizing st with
  | nil => rfl
  | cons a t ih => rw [List.foldl_cons, ih, svcCacheDelSession_userCache]

theorem cacheGetUser_congr (st1 st2 : AuthState) (k : String)
    (h : st1.userCache = st2.userCache) : cacheGetUser st1 k = cacheGetUser st2 k := by
  unfold cacheGetUser; rw [h]

theorem getUserByID_congr (st1 st2 : AuthState) (k : String)
    (h : st1.users = st2.users) : getUserByID st1 k = getUserByID st2 k := by
  unfold getUserByID; rw [h]

theorem checkSession_users (cacheTTL : Int) (st : AuthState) (claims : AccessTokenClaims) :
    (checkSession cacheTTL st claims).2.users = st.users := by
  unfold checkSession
  split
  · split <;> rfl
  · split
    · rfl
    · split <;> rfl

theorem checkSession_userCache (cacheTTL : Int) (st : AuthState)
    (claims : AccessTokenClaims) :
    (checkSession cacheTTL st claims).2.userCache = st.userCache := by
  unfold checkSession
  split
  · split <;> rfl
  · split
    · rfl
    · split <;> rfl

/-- Inversion of a successful `refresh`: every guard passed, and the
outputs are exactly the regenerated tokens and the rotated session row. -/
theorem refresh_ok_inversion (cfg : AuthConfig) (st : AuthState) (tok : RefreshTokenData)
    (atk : AccessTokenClaims) (rtk : RefreshTokenData) (st' : AuthState)
    (hrun : refresh cfg st tok = (.ok (atk, rtk), st')) :
    ∃ sess user,
      st.now < tok.exp ∧
      getSessionByRefreshTokenHash st (HashToken (signRefreshToken tok)) = some sess ∧
      sess.isActive = true ∧
      ¬ sess.expiresAt < st.now ∧
      getUserByID st tok.userId = some user ∧
      (!user.isActive || user.isBlocked) = false ∧
      atk = GenerateAccessToken st.now cfg.accessTokenLifetime
        user.id user.email user.role sess.id ∧
      rtk = GenerateRefreshToken st.now user.id sess.id (sess.expiresAt - st.now) ∧
      st' = updateSessionRefreshToken st sess.id (HashToken (signRefreshToken rtk)) := by
  unfold refresh at hrun
  split at hrun
  · exact absurd hrun (by simp)
  · next hexp =>
    split at hrun
    · exact absurd hrun (by simp)
    · next sess hsess =>
      split at hrun
      · exact absurd hrun (by simp)
      · next hact =>
        split at hrun
        · exact absurd hrun (by simp)
        · next hexpired =>
          split at hrun
          · exact absurd hrun (by simp)
          · next user huser =>
            split at hrun
            · exact absurd hrun (by simp)
            · next hflags =>
              refine ⟨sess, user, ?_, hsess, ?_, ?_, huser, ?_, ?_⟩
              · simpa using hexp
              · simpa using hact
              · simpa using hexpired
              · simpa using hflags
              · simp only [Prod.mk.injEq, Except.ok.injEq] at hrun
                obtain ⟨⟨hatk, hrtk⟩, hst⟩ := hrun
                exact ⟨hatk.symm, hrtk.symm, by rw [← hst, ← hrtk]⟩

/-! ## C9: codec round-trip -/

/-- C9: `HashToken` is deterministic; `ComparePassword` accepts exactly
the password that was hashed and rejects any other password. -/
theorem codec_roundtrip :
    (∀ x : String, HashToken x = HashToken x) ∧
    (∀ salt p : String, ComparePassword (HashPassword salt p) p = true) ∧
    (∀ salt p p2 : String, p2 ≠ p → ComparePassword (HashPassword salt p) p2 = false) := by
  refine ⟨fun _ => rfl, fun salt p => ?_, fun salt p p2 h => ?_⟩
  · simp [ComparePassword, HashPassword]
  · simp only [ComparePassword, HashPassword, beq_eq_false_iff_ne, ne_eq]
    exact fun hc => h hc.symm

/-- C9 witness: the round-trip at concrete inputs. -/
theorem codec_roundtrip_witness :
    HashToken ("tok") = HashToken ("tok") ∧
    ComparePassword (HashPassword ("salt1") ("password123")) ("password123") = true ∧
    ComparePassword (HashPassword ("salt1") ("password123")) ("password124") = false :=
  ⟨codec_roundtrip.1 ("tok"), codec_roundtrip.2.1 ("salt1") ("password123"),
   codec_roundtrip.2.2 ("salt1") ("password123") ("password124") (by decide)⟩

/-! ## C2: login failure indistinguishability -/

/-- C2: unknown email, inactive user, blocked user, and password
mismatch all make `Login` return the very same value — the
`InvalidCredentials` error with the state untouched. -/
theorem login_failures_indistinguishable (cfg : AuthConfig) (st : AuthState)
    (req : LoginRequest)
    (h : getUserByEmail st req.email = none ∨
         ∃ u, getUserByEmail st req.email = some u ∧
           (u.isActive = false ∨ u.isBlocked = true ∨
            ComparePassword u.password req.password = false)) :
    login cfg st req = (.error .invalidCredentials, st) := by
  unfold login
  rcases h with h | ⟨u, hu, hcase⟩
  · rw [h]
  · rw [hu]
    rcases ha : u.isActive <;> rcases hb : u.isBlocked <;>
      rcases hc : ComparePassword u.password req.password <;>
      simp_all

def stC2 : AuthState :=
  { users := [], sessions := [], resetTokens := [], sessionCache := [],
    userCache := [], now := 0, nextSessionId := 0 }

def cfgStd : AuthConfig :=
  { accessTokenLifetime := 900, refreshTokenLifetime := 604800,
    staySignedInLifetime := 2592000, passwordResetOTPLifetime := 900,
    cacheTTL := 3600 }

def reqC2 : LoginRequest :=
  { email := "ghost@example.com", password := "whatever", staySignedIn := false }

/-- C2 witness: a login against a store that does not know the email. -/
theorem login_failures_indistinguishable_witness :
    login cfgStd stC2 reqC2 = (.error .invalidCredentials, stC2) :=
  login_failures_indistinguishable cfgStd stC2 reqC2 (Or.inl rfl)

/-! ## C4: rotation preserves the session's absolute expiry -/

/-- C4: a successful `Refresh` mints the new refresh token with
`iat = now` and `exp` equal to the session's stored `expires_at`, i.e.
its lifetime is exactly the session's remaining time and rotation never
extends the absolute expiry. -/
theorem refresh_preserves_session_expiry (cfg : AuthConfig) (st : AuthState)
    (tok : RefreshTokenData) (atk : AccessTokenClaims) (rtk : RefreshTokenData)
    (st' : AuthState) (sess : Session)
    (hrun : refresh cfg st tok = (.ok (atk, rtk), st'))
    (hsess : getSessionByRefreshTokenHash st (HashToken (signRefreshToken tok))
      = some sess) :
    rtk.exp = sess.expiresAt ∧ rtk.iat = st.now := by
  obtain ⟨sess2, user, _, h2, _, _, _, _, _, hrtk, _⟩ :=
    refresh_ok_inversion cfg st tok atk rtk st' hrun
  rw [hsess] at h2
  injection h2 with h2
  subst h2
  subst hrtk
  refine ⟨?_, rfl⟩
  simp only [GenerateRefreshToken]
  omega

def uC4 : UserWithAuth :=
  { id := "u1", email := "owner@example.com",
    password := { salt := "s", password := "password123" }, role := "owner",
    isActive := true, isBlocked := false, blockedBy := none, deleted := false }

def tokC4 : RefreshTokenData :=
  { userId := "u1", sessionId := "sess-0", iat := 0, exp := 400 }

def sC4 : Session :=
  { id := "sess-0", userId := "u1",
    refreshTokenHash := HashToken (signRefreshToken tokC4),
    isActive := true, lastActivityAt := 0, expiresAt := 500, createdAt := 0 }

def stC4 : AuthState :=
  { users := [uC4], sessions := [sC4], resetTokens := [], sessionCache := [],
    userCache := [], now := 120, nextSessionId := 1 }

def atkC4 : AccessTokenClaims :=
  { userId := "u1", email := "owner@example.com", role := "owner",
    sessionId := "sess-0", iat := 120, exp := 1020 }

def rtkC4 : RefreshTokenData :=
  { userId := "u1", sessionId := "sess-0", iat := 120, exp := 500 }

/-- C4 witness: a concrete rotation 120s in; the new refresh token
expires exactly at the session's stored 500s mark. -/
theorem refresh_preserves_session_expiry_witness :
    rtkC4.exp = sC4.expiresAt ∧ rtkC4.iat = stC4.now :=
  refresh_preserves_session_expiry cfgStd stC4 tokC4 atkC4 rtkC4
    (refresh cfgStd stC4 tokC4).2 sC4 rfl rfl

/-! ## C5: password-reset request anti-enumeration -/

/-- C5: `RequestPasswordReset` on an email the store does not know
returns success with the state (in particular the reset-token table)
completely unchanged, and the call's result value is the same success
value as for any other input — no signal distinguishes existing from
non-existing emails. -/
theorem reset_request_anti_enumeration (cfg : AuthConfig) (st : AuthState)
    (email otp rawToken : String)
    (h : getUserByEmail st email = none) :
    requestPasswordReset cfg st email otp rawToken = (.ok (), st) ∧
    ∀ (st2 : AuthState) (email2 otp2 raw2 : String),
      (requestPasswordReset cfg st2 email2 otp2 raw2).1 = .ok () := by
  constructor
  · unfold requestPasswordReset
    rw [h]
  · intro st2 email2 otp2 raw2
    unfold requestPasswordReset
    cases getUserByEmail st2 email2 <;> rfl

def uC5 : UserWithAuth :=
  { id := "u9", email := "real@example.com",
    password := { salt := "s", password := "pw" }, role := "customer",
    isActive := true, isBlocked := false, blockedBy := none, deleted := false }

def stC5 : AuthState :=
  { users := [uC5], sessions := [], resetTokens := [], sessionCache := [],
    userCache := [], now := 50, nextSessionId := 0 }

/-- C5 witness: a reset request for an unknown email leaves the state
untouched and succeeds. -/
theorem reset_request_anti_enumeration_witness :
    requestPasswordReset cfgStd stC5 ("ghost@example.com") ("123456") ("rawtok")
      = (.ok (), stC5) :=
  (reset_request_anti_enumeration cfgStd stC5 ("ghost@example.com") ("123456")
    ("rawtok") rfl).1

/-! ## C7: logout idempotence -/

theorem session_setInactive_self (s : Session) (h : s.isActive = false) :
    { s with isActive := false } = s := by
  cases s
  simp_all

/-- Invalidating sessions that are already all inactive (or absent)
under the id changes nothing. -/
theorem invalidateSession_noop (st : AuthState) (sid : String)
    (h : ∀ s ∈ st.sessions, s.id = sid → s.isActive = false) :
    invalidateSession st sid = st := by
  have hmap : st.sessions.map
      (fun s => if s.id == sid then { s with isActive := false } else s) = st.sessions := by
    apply map_eq_self_of_fixed
    intro x hx
    cases hid : x.id == sid
    · simp [hid]
    · have hx2 : x.isActive = false := h x hx (by simpa using hid)
      simp [hid, session_setInactive_self x hx2]
  unfold invalidateSession
  rw [hmap]

theorem svcCacheDelSession_idem (st : AuthState) (sid : String) :
    svcCacheDelSession (svcCacheDelSession st sid) sid = svcCacheDelSession st sid := by
  unfold svcCacheDelSession cacheDelSession
  cases hs : sid == ""
  · simp only [hs, Bool.false_eq_true, if_false]
    rw [filter_idem]
  · simp [hs]

/-- C7: `Logout` always returns success (`InvalidateSession` is an
UPDATE that also succeeds on zero rows, so there is no not-found path),
and on a session that is already invalidated — or does not exist at
all — it leaves the session table unchanged and running it again
produces the identical result and state. -/
theorem logout_idempotent (st : AuthState) (sessionID : String)
    (h : ∀ s ∈ st.sessions, s.id = sessionID → s.isActive = false) :
    (logout st sessionID).1 = .ok () ∧
    (logout st sessionID).2.sessions = st.sessions ∧
    logout (logout st sessionID).2 sessionID = logout st sessionID := by
  have hinv : invalidateSession st sessionID = st := invalidateSession_noop st sessionID h
  refine ⟨rfl, ?_, ?_⟩
  · show (svcCacheDelSession (invalidateSession st sessionID) sessionID).sessions
      = st.sessions
    rw [hinv, svcCacheDelSession_sessions]
  · have hA : (logout st sessionID).2 = svcCacheDelSession st sessionID := by
      show svcCacheDelSession (invalidateSession st sessionID) sessionID = _
      rw [hinv]
    have hinv2 : invalidateSession (svcCacheDelSession st sessionID) sessionID
        = svcCacheDelSession st sessionID := by
      apply invalidateSession_noop
      intro s hs
      exact h s (by rwa [svcCacheDelSession_sessions] at hs)
    show ((Except.ok ()),
        svcCacheDelSession (invalidateSession (logout st sessionID).2 sessionID) sessionID)
      = ((Except.ok ()), svcCacheDelSession (invalidateSession st sessionID) sessionID)
    rw [hA, hinv, hinv2, svcCacheDelSession_idem]

def sC7 : Session :=
  { id := "s1", userId := "u1", refreshTokenHash := "h1",
    isActive := false, lastActivityAt := 5, expiresAt := 100, createdAt := 0 }

def entC7 : CacheEntry CachedSession :=
  { val := { userId := "u1", isActive := false, expiresAt := 100 }, ttl := 60 }

def stC7 : AuthState :=
  { users := [], sessions := [sC7], resetTokens := [],
    sessionCache := [("s1", entC7)],
    userCache := [], now := 50, nextSessionId := 1 }

/-- C7 witness: logging out an already-invalidated session succeeds and
leaves the session rows as they were. -/
theorem logout_idempotent_witness :
    (logout stC7 ("s1")).1 = .ok () ∧ (logout stC7 ("s1")).2.sessions = stC7.sessions := by
  have h := logout_idempotent stC7 ("s1") (by decide)
  exact ⟨h.1, h.2.1⟩

/-! ## C8: cookie lifetimes -/

def uC8 : UserWithAuth :=
  { id := "u1", email := "owner@example.com",
    password := { salt := "s", password := "password123" }, role := "owner",
    isActive := true, isBlocked := false, blockedBy := none, deleted := false }

def stC8 : AuthState :=
  { users := [uC8], sessions := [], resetTokens := [], sessionCache := [],
    userCache := [], now := 1000, nextSessionId := 0 }

def reqC8 : LoginRequest :=
  { email := "owner@example.com", password := "password123", staySignedIn := true }

/-- C8: on a successful stay-signed-in login (`stay_signed_in = true`,
extended lifetime 2592000s configured), the refresh-token cookie's
`MaxAge` is still the standard `RefreshTokenLifetime` (604800s) — the
handler's `setRefreshTokenCookie` never consults the stay-signed-in
flag, contradicting the documented behaviour; the access-token cookie
does mirror the access lifetime. -/
theorem refresh_cookie_ignores_stay_signed_in :
    (loginHandlerCookies cfgStd stC8 reqC8).map (fun p => p.2.maxAge)
      = some cfgStd.refreshTokenLifetime ∧
    (loginHandlerCookies cfgStd stC8 reqC8).map (fun p => p.2.maxAge)
      ≠ some cfgStd.staySignedInLifetime ∧
    (loginHandlerCookies cfgStd stC8 reqC8).map (fun p => p.1.maxAge)
      = some cfgStd.accessTokenLifetime := by
  refine ⟨rfl, ?_, rfl⟩
  decide

/-! ## C10: password persisted despite a later failure -/

theorem getUserByID_updateUserPassword (st : AuthState) (uid : String) (hp : BcryptHash) :
    getUserByID (updateUserPassword st uid hp) uid =
      (getUserByID st uid).map fun u =>
        if u.id == uid && !u.deleted then { u with password := hp } else u := by
  unfold getUserByID updateUserPassword
  exact find?_map_comm _ _
    (fun x => by cases hx : x.id == uid && !x.deleted <;> simp [hx]) st.users

/-- After `UpdateUserPassword`, the row found by `GetUserByID` carries
the new hash. -/
theorem updateUserPassword_password (st : AuthState) (uid : String) (hp : BcryptHash) :
    (getUserByID (updateUserPassword st uid hp) uid).map UserWithAuth.password
      = (getUserByID st uid).map fun _ => hp := by
  rw [getUserByID_updateUserPassword]
  cases hu : getUserByID st uid with
  | none => rfl
  | some u =>
    have hfind : st.users.find? (fun v => v.id == uid && !v.deleted) = some u := hu
    have hpred := List.find?_some hfind
    simp at hpred
    simp [hpred]

theorem markPasswordResetTokenAsUsed_users (st : AuthState) (tid : String) :
    (markPasswordResetTokenAsUsed st tid).users = st.users := rfl

/-- C10: when `VerifyPasswordReset` finds a valid token but a later
repository step fails — marking the token used, or invalidating the
user's sessions — the call returns an error even though the new
password hash has already been persisted: the operation is not atomic
and an error result does not mean the old state survived. -/
theorem verify_reset_not_atomic (flt : RepoFaults) (st : AuthState)
    (req : PasswordResetVerifyRequest) (salt : String) (tok : PasswordResetToken)
    (htok : getPasswordResetToken st req.email req.otp = some tok)
    (hfail : flt.failMarkTokenUsed = true ∨ flt.failInvalidateSessions = true) :
    exceptIsOk (verifyPasswordReset flt st req salt).1 = false ∧
    (getUserByID (verifyPasswordReset flt st req salt).2 tok.userId).map
        UserWithAuth.password
      = (getUserByID st tok.userId).map fun _ => HashPassword salt req.newPassword := by
  unfold verifyPasswordReset
  rw [htok]
  cases hf1 : flt.failMarkTokenUsed
  · cases hf2 : flt.failInvalidateSessions
    · rw [hf1] at hfail
      rw [hf2] at hfail
      simp at hfail
    · simp only [hf1, hf2, Bool.false_eq_true, if_false, if_true]
      refine ⟨rfl, ?_⟩
      have husers : (markPasswordResetTokenAsUsed
          (updateUserPassword st tok.userId (HashPassword salt req.newPassword))
          tok.id).users
          = (updateUserPassword st tok.userId (HashPassword salt req.newPassword)).users :=
        markPasswordResetTokenAsUsed_users _ _
      rw [getUserByID_congr _ _ _ husers]
      exact updateUserPassword_password st tok.userId (HashPassword salt req.newPassword)
  · simp only [hf1, if_true]
    exact ⟨rfl, updateUserPassword_password st tok.userId (HashPassword salt req.newPassword)⟩

def uC10 : UserWithAuth :=
  { id := "u7", email := "reset@example.com",
    password := { salt := "old", password := "oldpw" }, role := "customer",
    isActive := true, isBlocked := false, blockedBy := none, deleted := false }

def tokC10 : PasswordResetToken :=
  { id := "prt-0", userId := "u7", tokenHash := "th", otp := "123456",
    expiresAt := 900, used := false, createdAt := 10 }

def stC10 : AuthState :=
  { users := [uC10], sessions := [], resetTokens := [tokC10], sessionCache := [],
    userCache := [], now := 100, nextSessionId := 0 }

def reqC10 : PasswordResetVerifyRequest :=
  { email := "reset@example.com", otp := "123456", newPassword := "newpw" }

def fltC10 : RepoFaults :=
  { failMarkTokenUsed := true, failInvalidateSessions := false }

/-- C10 witness: with the mark-token-used step failing, the call errors
while the store already holds the new password hash. -/
theorem verify_reset_not_atomic_witness :
    exceptIsOk (verifyPasswordReset fltC10 stC10 reqC10 ("ns")).1 = false ∧
    (getUserByID (verifyPasswordReset fltC10 stC10 reqC10 ("ns")).2 tokC10.userId).map
        UserWithAuth.password
      = (getUserByID stC10 tokC10.userId).map fun _ => HashPassword ("ns")
          reqC10.newPassword :=
  verify_reset_not_atomic fltC10 stC10 reqC10 ("ns") tokC10 rfl (Or.inl rfl)

/-! ## C6: session-cache TTL clamping -/

/-- For a strictly positive remaining time, the source's clamp pattern
agrees with the minimum. -/
theorem clampCacheTTL_pos_min (ttl u : Int) (h : 0 < u) :
    clampCacheTTL ttl u = min ttl u := by
  unfold clampCacheTTL
  by_cases hlt : u < ttl
  · rw [if_pos (by simp [h, hlt]), min_eq_right hlt.le]
  · rw [if_neg (by simp [h, hlt]), min_eq_left (not_lt.mp hlt)]

/-- `createSession` caches the new session with TTL
`min(cacheTTL, refresh lifetime)` when the lifetime is positive. -/
theorem createSession_cache_ttl (cfg : AuthConfig) (st : AuthState)
    (user : UserWithAuth) (L : Int) (h : 0 < L) :
    (cacheGetSession (createSession cfg st user L).2.2.2
        ("sess-" ++ toString st.nextSessionId)).map CacheEntry.ttl
      = some (min cfg.cacheTTL L) := by
  have harith : st.now + L - st.now = L := by omega
  simp [createSession, cacheSetUser, cacheSetSession, cacheGetSession, List.find?,
    harith, clampCacheTTL_pos_min cfg.cacheTTL L h]

/-- The middleware's populate path caches the session with TTL
`min(cacheTTL, remaining)` when the remaining time is positive. -/
theorem checkSession_populate_ttl (cacheTTL : Int) (st : AuthState)
    (claims : AccessTokenClaims) (sess : Session)
    (hmiss : cacheGetSession st claims.sessionId = none)
    (hdb : getSessionByID st claims.sessionId = some sess)
    (hact : sess.isActive = true)
    (hrem : st.now < sess.expiresAt)
    (hnz : sess.expiresAt ≠ 0) :
    (cacheGetSession (checkSession cacheTTL st claims).2 claims.sessionId).map
        CacheEntry.ttl
      = some (min cacheTTL (sess.expiresAt - st.now)) := by
  have h1 : ¬ sess.expiresAt < st.now := not_lt.mpr hrem.le
  have h2 : (0 : Int) < sess.expiresAt - st.now := by omega
  simp only [checkSession, hmiss, hdb]
  simp [hact, h1, cacheGetSession, cacheSetSession, List.find?, hnz,
    clampCacheTTL_pos_min cacheTTL _ h2]

/-- C6 (amended): whenever the time remaining until the session's
`expires_at` is strictly positive, both session-cache write sites
(`createSession` and the middleware populate path) hand the cache
exactly `min(configured cache TTL, remaining time)`; when the remaining
time is zero the code skips the clamp and uses the full configured TTL
(see the counterexample). -/
theorem session_cache_ttl_clamped :
    (∀ (cfg : AuthConfig) (st : AuthState) (user : UserWithAuth) (L : Int), 0 < L →
      (cacheGetSession (createSession cfg st user L).2.2.2
          ("sess-" ++ toString st.nextSessionId)).map CacheEntry.ttl
        = some (min cfg.cacheTTL L)) ∧
    (∀ (cacheTTL : Int) (st : AuthState) (claims : AccessTokenClaims) (sess : Session),
      cacheGetSession st claims.sessionId = none →
      getSessionByID st claims.sessionId = some sess →
      sess.isActive = true → st.now < sess.expiresAt → sess.expiresAt ≠ 0 →
      (cacheGetSession (checkSession cacheTTL st claims).2 claims.sessionId).map
          CacheEntry.ttl
        = some (min cacheTTL (sess.expiresAt - st.now))) :=
  ⟨createSession_cache_ttl, checkSession_populate_ttl⟩

def uC6 : UserWithAuth :=
  { id := "u1", email := "c@d.example", password := { salt := "s", password := "pw" },
    role := "customer", isActive := true, isBlocked := false, blockedBy := none,
    deleted := false }

def sC6 : Session :=
  { id := "s1", userId := "u1", refreshTokenHash := "h", isActive := true,
    lastActivityAt := 0, expiresAt := 500, createdAt := 0 }

def stC6 : AuthState :=
  { users := [uC6], sessions := [sC6], resetTokens := [], sessionCache := [],
    userCache := [], now := 500, nextSessionId := 1 }

def claimsC6 : AccessTokenClaims :=
  { userId := "u1", email := "c@d.example", role := "customer", sessionId := "s1",
    iat := 400, exp := 1300 }

/-- C6 counterexample: at the exact expiry instant (remaining time 0,
which still passes the middleware's not-expired check since `After` is
strict), the populate path writes the session entry with the full
configured TTL 3600, not `min(3600, 0) = 0`: the claimed equality with
the minimum fails, and the entry's TTL outlives the session's expiry. -/
theorem session_cache_ttl_counterexample :
    (cacheGetSession (checkSession 3600 stC6 claimsC6).2 ("s1")).map CacheEntry.ttl
      = some 3600 ∧
    ¬ ((3600 : Int) = min 3600 (sC6.expiresAt - stC6.now)) :=
  ⟨rfl, by decide⟩

def sC6w : Session :=
  { id := "s1", userId := "u1", refreshTokenHash := "h", isActive := true,
    lastActivityAt := 0, expiresAt := 700, createdAt := 0 }

def stC6w : AuthState :=
  { users := [uC6], sessions := [sC6w], resetTokens := [], sessionCache := [],
    userCache := [], now := 500, nextSessionId := 1 }

/-- C6 witness: with 200s remaining and a 3600s configured TTL, the
middleware caches the session entry with TTL `min(3600, 200) = 200`. -/
theorem session_cache_ttl_clamped_witness :
    (cacheGetSession (checkSession 3600 stC6w claimsC6).2 claimsC6.sessionId).map
        CacheEntry.ttl
      = some (min 3600 (sC6w.expiresAt - stC6w.now)) :=
  session_cache_ttl_clamped.2 3600 stC6w claimsC6 sC6w rfl rfl rfl (by decide) (by decide)

/-! ## C3: refresh-token rotation -/

/-- C3 (amended): a successful `Refresh` rewrites the session row's
stored hash to the hash of the newly minted refresh token; and provided
the new token differs from the presented one (true whenever the rotation
happens at a different second than the presented token's `iat`; the
same-second corner is the counterexample) and the presented token's hash
identifies only this session (the store's uniqueness invariant on
`refresh_token_hash`), a subsequent `Refresh` presenting the old token
finds no session by its hash and fails with `SessionNotFound`. -/
theorem refresh_rotates_hash (cfg : AuthConfig) (st : AuthState)
    (tok : RefreshTokenData) (atk : AccessTokenClaims) (rtk : RefreshTokenData)
    (st' : AuthState) (sess : Session)
    (hrun : refresh cfg st tok = (.ok (atk, rtk), st'))
    (hsess : getSessionByRefreshTokenHash st (HashToken (signRefreshToken tok))
      = some sess)
    (hne : HashToken (signRefreshToken rtk) ≠ HashToken (signRefreshToken tok))
    (huniq : ∀ s ∈ st.sessions,
      s.refreshTokenHash = HashToken (signRefreshToken tok) → s.id = sess.id) :
    (∀ s' ∈ st'.sessions, s'.id = sess.id →
      s'.refreshTokenHash = HashToken (signRefreshToken rtk)) ∧
    (refresh cfg st' tok).1 = .error .sessionNotFound := by
  obtain ⟨sess2, user, hlt, h2, _, _, _, _, _, _, hst⟩ :=
    refresh_ok_inversion cfg st tok atk rtk st' hrun
  rw [hsess] at h2
  injection h2 with h2
  subst h2
  subst hst
  constructor
  · intro s' hs' hid
    have hs2 : s' ∈ st.sessions.map fun s =>
        if s.id == sess.id then
          { s with refreshTokenHash := HashToken (signRefreshToken rtk),
                   lastActivityAt := st.now }
        else s := hs'
    rcases List.mem_map.mp hs2 with ⟨s0, hs0, hfs0⟩
    by_cases hc : (s0.id == sess.id) = true
    · rw [← hfs0]
      simp [hc]
    · rw [← hfs0] at hid
      rw [if_neg hc] at hid
      exact absurd hid (by simpa using hc)
  · have hnone : getSessionByRefreshTokenHash
        (updateSessionRefreshToken st sess.id (HashToken (signRefreshToken rtk)))
        (HashToken (signRefreshToken tok)) = none := by
      unfold getSessionByRefreshTokenHash updateSessionRefreshToken
      apply List.find?_eq_none.mpr
      intro s' hs'
      rcases List.mem_map.mp hs' with ⟨s0, hs0, hfs0⟩
      subst hfs0
      by_cases hc : (s0.id == sess.id) = true
      · simpa [hc] using fun hh => hne hh
      · rw [if_neg hc]
        simp only [beq_iff_eq]
        intro hh
        exact absurd (huniq s0 hs0 hh) (by simpa using hc)
    unfold refresh
    rw [if_neg (by simpa [updateSessionRefreshToken] using hlt)]
    simp only [hnone]

def tokC3 : RefreshTokenData :=
  { userId := "u1", sessionId := "s1", iat := 100, exp := 200 }

def uC3 : UserWithAuth :=
  { id := "u1", email := "e@x.example", password := { salt := "s", password := "pw" },
    role := "customer", isActive := true, isBlocked := false, blockedBy := none,
    deleted := false }

def sC3 : Session :=
  { id := "s1", userId := "u1",
    refreshTokenHash := HashToken (signRefreshToken tokC3),
    isActive := true, lastActivityAt := 100, expiresAt := 200, createdAt := 100 }

def stC3 : AuthState :=
  { users := [uC3], sessions := [sC3], resetTokens := [], sessionCache := [],
    userCache := [], now := 100, nextSessionId := 2 }

/-- C3 counterexample: refreshing in the very second the presented token
was minted regenerates a token with identical claims — hence (JWT
signing being deterministic) an identical token and identical hash — so
after the successful "rotation" the old refresh token still refreshes
successfully instead of failing with `SessionNotFound`. -/
theorem refresh_rotation_counterexample :
    exceptIsOk (refresh cfgStd stC3 tokC3).1 = true ∧
    exceptIsOk (refresh cfgStd (refresh cfgStd stC3 tokC3).2 tokC3).1 = true :=
  ⟨rfl, rfl⟩

def stC3w : AuthState :=
  { stC3 with now := 150 }

def rtkC3w : RefreshTokenData :=
  { userId := "u1", sessionId := "s1", iat := 150, exp := 200 }

def atkC3w : AccessTokenClaims :=
  { userId := "u1", email := "e@x.example", role := "customer", sessionId := "s1",
    iat := 150, exp := 1050 }

/-- C3 witness: rotating 50s after issuance mints a different token, and
the old token then fails with `SessionNotFound`. -/
theorem refresh_rotates_hash_witness :
    (refresh cfgStd (refresh cfgStd stC3w tokC3).2 tokC3).1
      = .error .sessionNotFound :=
  (refresh_rotates_hash cfgStd stC3w tokC3 atkC3w rtkC3w
    (refresh cfgStd stC3w tokC3).2 sC3 rfl rfl (by decide) (by decide)).2

/-! ## C1: blocked or inactive users cannot authenticate -/

theorem svcCacheDelUser_users (st : AuthState) (uid : String) :
    (svcCacheDelUser st uid).users = st.users := by
  unfold svcCacheDelUser cacheDelUser
  split <;> rfl

/-- `BlockUser` deletes the target's user-cache entry (ids are nonempty). -/
theorem blockUser_cacheGetUser (st : AuthState) (uid a : String) (h : uid ≠ "") :
    cacheGetUser (blockUser st uid a).2 uid = none := by
  show cacheGetUser (svcCacheDelUser
    ((getActiveSessionIDsByUserID st uid).foldl svcCacheDelSession
      (invalidateAllUserSessions (blockUserRepo st uid a) uid)) uid) uid = none
  unfold svcCacheDelUser
  rw [if_neg (by simpa using h)]
  simp [cacheGetUser, cacheDelUser, find?_filter_ne_none]

/-- After `BlockUser`, the user table is exactly the table with the
repository-level block applied. -/
theorem blockUser_users (st : AuthState) (uid a : String) :
    (blockUser st uid a).2.users = (blockUserRepo st uid a).users := by
  show (svcCacheDelUser ((getActiveSessionIDsByUserID st uid).foldl svcCacheDelSession
    (invalidateAllUserSessions (blockUserRepo st uid a) uid)) uid).users = _
  rw [svcCacheDelUser_users, foldl_svcCacheDelSession_users]
  rfl

theorem getUserByID_blockUserRepo (st : AuthState) (uid a : String) :
    getUserByID (blockUserRepo st uid a) uid =
      (getUserByID st uid).map fun u =>
        if u.id == uid && !u.deleted then
          { u with isBlocked := true, blockedBy := some a }
        else u := by
  unfold getUserByID blockUserRepo
  exact find?_map_comm _ _
    (fun x => by cases hx : x.id == uid && !x.deleted <;> simp [hx]) st.users

/-- Any user row the store returns for the target after the repository
block carries the blocked flag. -/
theorem blockUserRepo_isBlocked (st : AuthState) (uid a : String) (u' : UserWithAuth)
    (h : getUserByID (blockUserRepo st uid a) uid = some u') : u'.isBlocked = true := by
  rw [getUserByID_blockUserRepo] at h
  cases hu : getUserByID st uid with
  | none =>
    rw [hu] at h
    exact absurd h (by simp)
  | some u0 =>
    rw [hu] at h
    simp only [Option.map_some'] at h
    have hfind : st.users.find? (fun v => v.id == uid && !v.deleted) = some u0 := hu
    have hpred := List.find?_some hfind
    rw [if_pos hpred] at h
    injection h with h
    rw [← h]

/-- If every user projection the middleware could resolve for the
token's user — from the cache or from the store — is inactive or
blocked (or the store has no row at all), the request is rejected. -/
theorem authenticate_rejects_of_bad_user (cacheTTL : Int) (S : AuthState)
    (c : AccessTokenClaims)
    (hcache : ∀ e, cacheGetUser S c.userId = some e →
      (!e.val.isActive || e.val.isBlocked) = true)
    (hdb : ∀ u', getUserByID S c.userId = some u' →
      (!u'.isActive || u'.isBlocked) = true) :
    outcomeIsOk (authenticate cacheTTL S c).1 = false := by
  unfold authenticate
  rcases hcs : checkSession cacheTTL S c with ⟨r, st1⟩
  have hUC : st1.userCache = S.userCache := by
    have hh := checkSession_userCache cacheTTL S c
    rw [hcs] at hh
    exact hh
  have hUS : st1.users = S.users := by
    have hh := checkSession_users cacheTTL S c
    rw [hcs] at hh
    exact hh
  cases r with
  | error e => simp [hcs, outcomeIsOk]
  | ok su =>
    simp only [hcs]
    by_cases hif : (su.1 != "" && su.1 != c.userId) = true
    · rw [if_pos hif]
      simp [outcomeIsOk]
    · rw [if_neg hif]
      have hgu1 : cacheGetUser st1 c.userId = cacheGetUser S c.userId :=
        cacheGetUser_congr _ _ _ hUC
      rcases hgu : cacheGetUser S c.userId with _ | e
      · have hmiss : cacheGetUser st1 c.userId = none := by rw [hgu1, hgu]
        have hu1 : getUserByID st1 c.userId = getUserByID S c.userId :=
          getUserByID_congr _ _ _ hUS
        rcases hdbu : getUserByID S c.userId with _ | u'
        · have hnone : getUserByID st1 c.userId = none := by rw [hu1, hdbu]
          simp [checkUser, hmiss, hnone, outcomeIsOk]
        · have hsome : getUserByID st1 c.userId = some u' := by rw [hu1, hdbu]
          have hbad := hdb u' hdbu
          simp [checkUser, hmiss, hsome, hbad, outcomeIsOk]
      · have hhit : cacheGetUser st1 c.userId = some e := by rw [hgu1, hgu]
        have hbad := hcache e hgu
        simp [checkUser, hhit, hbad, outcomeIsOk]

/-- C1: (i) whenever the store's row for the token's user is inactive or
blocked and any cached projection of that user agrees with the store on
those flags (which every service mutation preserves, since block/unblock
and logout-all delete the cache entry), the middleware rejects the
request — the session stage can never turn a rejection into an
acceptance since identity is only attached after the user gate; and
(ii) immediately after `BlockUser(target, actor)` completes, every
request presenting any valid access-token claims for the target —
whenever minted — is rejected. -/
theorem blocked_user_never_authenticates (cacheTTL : Int) (st : AuthState)
    (claims : AccessTokenClaims) (u : UserWithAuth)
    (husr : getUserByID st claims.userId = some u)
    (hflag : u.isActive = false ∨ u.isBlocked = true)
    (hcache : ∀ e, cacheGetUser st claims.userId = some e →
      e.val.isActive = u.isActive ∧ e.val.isBlocked = u.isBlocked) :
    outcomeIsOk (authenticate cacheTTL st claims).1 = false ∧
    ∀ (st0 : AuthState) (target actor : String) (c : AccessTokenClaims),
      target ≠ "" → c.userId = target →
      outcomeIsOk (authenticate cacheTTL (blockUser st0 target actor).2 c).1 = false := by
  constructor
  · apply authenticate_rejects_of_bad_user
    · intro e he
      obtain ⟨ha, hb⟩ := hcache e he
      rcases hflag with h | h <;> simp [ha, hb, h]
    · intro u' hu'
      rw [husr] at hu'
      injection hu' with hu'
      subst hu'
      rcases hflag with h | h <;> simp [h]
  · intro st0 target actor c htarget hcid
    apply authenticate_rejects_of_bad_user
    · intro e he
      rw [hcid, blockUser_cacheGetUser st0 target actor htarget] at he
      exact absurd he (by simp)
    · intro u' hu'
      rw [hcid] at hu'
      rw [getUserByID_congr _ _ _ (blockUser_users st0 target actor)] at hu'
      have hb := blockUserRepo_isBlocked st0 target actor u' hu'
      simp [hb]

def uC1 : UserWithAuth :=
  { id := "u1", email := "b@x.example", password := { salt := "s", password := "pw" },
    role := "customer", isActive := true, isBlocked := true, blockedBy := some "adm",
    deleted := false }

def sC1 : Session :=
  { id := "s1", userId := "u1", refreshTokenHash := "h1", isActive := true,
    lastActivityAt := 10, expiresAt := 1000, createdAt := 0 }

def stC1 : AuthState :=
  { users := [uC1], sessions := [sC1], resetTokens := [], sessionCache := [],
    userCache := [], now := 20, nextSessionId := 2 }

def claimsC1 : AccessTokenClaims :=
  { userId := "u1", email := "b@x.example", role := "customer", sessionId := "s1",
    iat := 10, exp := 910 }

def uC1b : UserWithAuth :=
  { id := "u2", email := "t@x.example", password := { salt := "s", password := "pw" },
    role := "customer", isActive := true, isBlocked := false, blockedBy := none,
    deleted := false }

def sC1b : Session :=
  { id := "s2", userId := "u2", refreshTokenHash := "h2", isActive := true,
    lastActivityAt := 10, expiresAt := 1000, createdAt := 0 }

def stC1b : AuthState :=
  { users := [uC1b], sessions := [sC1b], resetTokens := [], sessionCache := [],
    userCache := [], now := 20, nextSessionId := 2 }

def claimsC1b : AccessTokenClaims :=
  { userId := "u2", email := "t@x.example", role := "customer", sessionId := "s2",
    iat := 10, exp := 910 }

/-- C1 witness: a blocked user's still-unexpired token is rejected, and
after blocking a previously fine user every prior token of theirs is
rejected too. -/
theorem blocked_user_never_authenticates_witness :
    outcomeIsOk (authenticate 3600 stC1 claimsC1).1 = false ∧
    outcomeIsOk (authenticate 3600 (blockUser stC1b ("u2") ("u1")).2 claimsC1b).1
      = false := by
  have h := blocked_user_never_authenticates 3600 stC1 claimsC1 uC1 rfl (Or.inr rfl)
    (by intro e he
        rw [show cacheGetUser stC1 claimsC1.userId = none from rfl] at he
        exact absurd he (by simp))
  exact ⟨h.1, h.2 stC1b ("u2") ("u1") claimsC1b (by decide) rfl⟩

end RestApi
